import Mathlib

/-!
Shallow embedding of the modmesh core covered by the specification:
the cell-type catalog and the StaticMesh aggregate (src/include/modmesh/mesh.hpp)
and the dtype-erased array plex construction, value-fill and typed-extraction
logic (src/cpp/modmesh/buffer/pymod/wrap_SimpleArrayPlex.cpp).

Machine integers are modelled as ℤ with explicit reduction modulo 2^w where
the code narrows to a fixed width; Python float / C double values are carried
as exact rationals (the claims only exercise values on which no rounding can
occur). Fallible operations return `Except String`.
-/

/-! ## Cell types (mesh.hpp, struct CellTypeBase / CellType<ND>) -/

/-- Fixed global maxima from `CellTypeBase` (mesh.hpp lines 57-63). -/
def FCNND_MAX : ℕ := 4

/-- Maximum number of cells in a face (`FCNCL_MAX`). -/
def FCNCL_MAX : ℕ := 2

/-- Maximum number of nodes in a cell (`CLNND_MAX`). -/
def CLNND_MAX : ℕ := 8

/-- Maximum number of faces in a cell (`CLNFC_MAX`). -/
def CLNFC_MAX : ℕ := 6

/-- `CellType<ND>` (mesh.hpp lines 69-116): the template parameter `NDIM`
together with the id and node/edge/surface cardinalities stored by the
constructor. -/
structure CellType where
  ndim : ℕ
  id : ℕ
  nnode : ℕ
  nedge : ℕ
  nsurface : ℕ
deriving DecidableEq

/-- `CellType::nface` (mesh.hpp lines 86-91): edges in 2-D, surfaces in 3-D,
zero otherwise. -/
def CellType.nface (c : CellType) : ℕ :=
  if c.ndim = 2 then c.nedge
  else if c.ndim = 3 then c.nsurface
  else 0

/-- `PointCellType` (mesh.hpp line 124): id 1, ndim 0, 1 node, 0 edges, 0 surfaces. -/
def PointCellType : CellType := ⟨0, 1, 1, 0, 0⟩

/-- `LineCellType` (mesh.hpp line 125). -/
def LineCellType : CellType := ⟨1, 2, 2, 0, 0⟩

/-- `QuadrilateralCellType` (mesh.hpp line 126). -/
def QuadrilateralCellType : CellType := ⟨2, 3, 4, 4, 0⟩

/-- `TriangleCellType` (mesh.hpp line 127). -/
def TriangleCellType : CellType := ⟨2, 4, 3, 3, 0⟩

/-- `HexahedronCellType` (mesh.hpp line 128). -/
def HexahedronCellType : CellType := ⟨3, 5, 8, 12, 6⟩

/-- `TetrahedronCellType` (mesh.hpp line 129). -/
def TetrahedronCellType : CellType := ⟨3, 6, 4, 6, 4⟩

/-- `PrismCellType` (mesh.hpp line 130). -/
def PrismCellType : CellType := ⟨3, 7, 6, 9, 5⟩

/-- `PyramidCellType` (mesh.hpp line 131). -/
def PyramidCellType : CellType := ⟨3, 8, 5, 8, 5⟩

/-! ## StaticMesh (mesh.hpp, class StaticMeshBase<D, ND>)

Only the shape bookkeeping is needed by the claims: the counts and, for every
named table, the shape vector passed to its `SimpleArray` constructor. -/

/-- The state established by `StaticMeshBase`'s constructor: interior and
ghost counts plus the construction-time shape of each named table. -/
structure StaticMesh where
  ndim : ℕ
  nnode : ℕ
  nface : ℕ
  ncell : ℕ
  nbound : ℕ
  ngstnode : ℕ
  ngstface : ℕ
  ngstcell : ℕ
  use_incenter : Bool
  ndcrd_shape : List ℕ
  fccnd_shape : List ℕ
  fcnml_shape : List ℕ
  fcara_shape : List ℕ
  clcnd_shape : List ℕ
  clvol_shape : List ℕ
  fctpn_shape : List ℕ
  cltpn_shape : List ℕ
  clgrp_shape : List ℕ
  fcnds_shape : List ℕ
  fccls_shape : List ℕ
  clnds_shape : List ℕ
  clfcs_shape : List ℕ
deriving DecidableEq

/-- `StaticMeshBase::StaticMeshBase(nnode, nface, ncell, nbound, ctor_passkey)`
(mesh.hpp lines 167-183), with `NDIM` the class template parameter. Each
`..._shape` field records the `std::vector<size_t>` handed to the
corresponding `SimpleArray` member initializer, in source order; in
particular `m_fctpn` is initialized with `{ncell}` (line 176). -/
def staticMeshBase (NDIM nnode nface ncell nbound : ℕ) : StaticMesh :=
  { ndim := NDIM
  , nnode := nnode
  , nface := nface
  , ncell := ncell
  , nbound := nbound
  , ngstnode := 0
  , ngstface := 0
  , ngstcell := 0
  , use_incenter := false
  , ndcrd_shape := [nnode, NDIM]
  , fccnd_shape := [nface, NDIM]
  , fcnml_shape := [nface, NDIM]
  , fcara_shape := [nface]
  , clcnd_shape := [ncell, NDIM]
  , clvol_shape := [ncell]
  , fctpn_shape := [ncell]
  , cltpn_shape := [ncell]
  , clgrp_shape := [ncell]
  , fcnds_shape := [nface, FCNND_MAX]
  , fccls_shape := [nface, FCNCL_MAX]
  , clnds_shape := [ncell, CLNND_MAX]
  , clfcs_shape := [ncell, CLNFC_MAX] }

/-- `StaticMesh2d` fixes `ND = 2` (mesh.hpp lines 241-245). -/
def staticMesh2d (nnode nface ncell nbound : ℕ) : StaticMesh :=
  staticMeshBase 2 nnode nface ncell nbound

/-- `StaticMesh3d` fixes `ND = 3` (mesh.hpp lines 247-251). -/
def staticMesh3d (nnode nface ncell nbound : ℕ) : StaticMesh :=
  staticMeshBase 3 nnode nface ncell nbound

/-! ## Dtype tags and Python-side values (wrap_SimpleArrayPlex.cpp) -/

/-- The dtype tag of an array plex. The ten supported tags follow the `case`
labels of `init_array_plex_with_value` and `get_typed_array`
(wrap_SimpleArrayPlex.cpp lines 90-204 and 212-273).
Modelled from the spec: the `DataType` enumeration itself lives outside src/;
`Undefined` stands for a tag outside the fixed enumeration of ten, the value
handled by each switch's `default:` label. -/
inductive DataType where
  | Bool
  | Int8
  | Int16
  | Int32
  | Int64
  | Uint8
  | Uint16
  | Uint32
  | Uint64
  | Float32
  | Float64
  | Undefined
deriving DecidableEq

/-- The integer-dtype family: the eight tags whose `case` blocks in
`init_array_plex_with_value` demand a Python int. -/
def isIntegerType : DataType → Bool
  | .Int8 | .Int16 | .Int32 | .Int64 => true
  | .Uint8 | .Uint16 | .Uint32 | .Uint64 => true
  | _ => false

/-- The float-dtype family: the two tags whose `case` blocks demand a
Python float. -/
def isFloatType : DataType → Bool
  | .Float32 | .Float64 => true
  | _ => false

/-- A Python object passed as the `value` argument: a bool, an int of
unbounded magnitude, or a float (carried as an exact rational; the claims
only exercise values where a C `double` holds the value exactly). -/
inductive PyVal where
  | bool (b : Bool)
  | int (n : ℤ)
  | float (q : ℚ)
deriving DecidableEq

/-- `pybind11::isinstance<pybind11::bool_>(value)`: CPython's `PyBool_Check`
is exact, so only a Python bool passes. -/
def isBoolInstance : PyVal → Bool
  | .bool _ => true
  | _ => false

/-- `pybind11::isinstance<pybind11::int_>(value)`: CPython's `PyLong_Check`
also accepts a Python bool, because `bool` is a subtype of `int`. -/
def isIntInstance : PyVal → Bool
  | .bool _ => true
  | .int _ => true
  | _ => false

/-- `pybind11::isinstance<pybind11::float_>(value)`: CPython's
`PyFloat_Check` is exact. -/
def isFloatInstance : PyVal → Bool
  | .float _ => true
  | _ => false

/-- The integer carried by a value that passed `isIntInstance` (a Python
bool converts to 0 or 1). The float branch is unreachable behind the
instance check. -/
def pyIntOf : PyVal → ℤ
  | .bool b => if b then 1 else 0
  | .int n => n
  | .float _ => 0

/-- The rational carried by a value that passed `isFloatInstance`. -/
def pyFloatOf : PyVal → ℚ
  | .float q => q
  | _ => 0

/-- The bool carried by a value that passed `isBoolInstance`. -/
def pyBoolOf : PyVal → Bool
  | .bool b => b
  | _ => false

/-- Modelled from the spec: `value.cast<uintN_t>()` narrows/truncates the
integer to the destination width per fixed-width wraparound (the cast
machinery lives outside src/). Reduction modulo `2^w` into `[0, 2^w)`. -/
def truncUnsigned (w : ℕ) (v : ℤ) : ℤ := v % (2 ^ w : ℤ)

/-- Modelled from the spec: `value.cast<intN_t>()` narrows/truncates to a
signed `w`-bit destination: the residue modulo `2^w`, shifted into
`[-2^(w-1), 2^(w-1))`. -/
def truncSigned (w : ℕ) (v : ℤ) : ℤ :=
  if v % (2 ^ w : ℤ) < 2 ^ (w - 1) then v % (2 ^ w : ℤ)
  else v % (2 ^ w : ℤ) - 2 ^ w

/-! ## The array plex and its operations -/

/-- One stored element: each concrete `SimpleArrayT` stores one scalar kind. -/
inductive Scalar where
  | b (x : Bool)
  | i (x : ℤ)
  | f (x : ℚ)
deriving DecidableEq

/-- A concretely typed `SimpleArray<T>`: element type tag, an identity for
the owned `ConcreteBuffer` (so freshness of storage is expressible), shape,
and the element list (length = product of the shape). -/
structure SimpleArray where
  dtype : DataType
  buf : ℕ
  shape : List ℕ
  data : List Scalar
deriving DecidableEq

/-- `SimpleArrayPlex`: the dtype tag plus ownership of one concretely
typed array (`instance_ptr` in the C++). -/
structure SimpleArrayPlex where
  data_type : DataType
  arr : SimpleArray
deriving DecidableEq

/-- The zero-initialized element of each family, standing for the
unspecified content of a freshly allocated buffer. -/
def defaultScalar : DataType → Scalar
  | .Bool => .b false
  | .Float32 | .Float64 => .f 0
  | _ => .i 0

/-- Modelled from the spec: `SimpleArrayPlex(shape, datatype)` resolves the
dtype against the fixed enumeration — failing with an "Unsupported datatype"
error outside it — and allocates a `SimpleArray<T>` of `product(shape)`
elements for the matched T (the constructor body lives outside src/). The
fresh buffer gets identity 0. -/
def plexConstruct (shape : List ℕ) (dt : DataType) : Except String SimpleArrayPlex :=
  match dt with
  | .Undefined => .error "Unsupported datatype"
  | _ => .ok ⟨dt, ⟨dt, 0, shape, List.replicate shape.prod (defaultScalar dt)⟩⟩

/-- `SimpleArray<T>::fill(value)` (spec §4.2): writes the value over every
element of the owned buffer. -/
def fillArray (p : SimpleArrayPlex) (s : Scalar) : SimpleArrayPlex :=
  ⟨p.data_type, ⟨p.arr.dtype, p.arr.buf, p.arr.shape, List.replicate p.arr.data.length s⟩⟩

/-- The `shape` argument of the pybind constructors: a scalar count or a
sequence of counts. -/
inductive PyShapeArg where
  | ofInt (n : ℕ)
  | ofList (l : List ℕ)
deriving DecidableEq

/-- `shape_in.cast<size_t>()` inside the `try` block of `make_shape`
(wrap_SimpleArrayPlex.cpp lines 279-283): succeeds exactly on a scalar,
throws `cast_error` on a sequence. -/
def tryScalarCast : PyShapeArg → Option ℕ
  | .ofInt n => some n
  | .ofList _ => none

/-- `shape_in.cast<std::vector<size_t>>()` in the `catch` handler (line
285). The scalar branch is unreachable: `make_shape` only reaches the
handler after the scalar cast threw. -/
def seqCast : PyShapeArg → List ℕ
  | .ofInt n => [n]
  | .ofList l => l

/-- `make_shape` (wrap_SimpleArrayPlex.cpp lines 276-288): first attempt the
scalar interpretation, pushing a single count; on cast failure fall back to
the sequence interpretation. -/
def make_shape (shape_in : PyShapeArg) : List ℕ :=
  match tryScalarCast shape_in with
  | some n => [n]
  | none => seqCast shape_in

/-- `init_array_plex_with_value` (wrap_SimpleArrayPlex.cpp lines 84-206):
parse the shape, construct the plex for the datatype, then switch on the
resolved dtype tag: each case first checks the Python value's kind with
`pybind11::isinstance` — throwing a "Data type mismatch" `runtime_error`
when it fails — and otherwise casts the value to the case's C type and
fills every element with it. The `Uint32` case casts the value to `int32_t`
(line 169) and the `Uint64` case to `int64_t` (line 179); storing the cast
result into the unsigned array reduces it modulo `2^32` / `2^64`. The
`Float32` narrowing to C `float` is value-exact on the rationals the claims
exercise and is modelled as the identity on the carried rational. -/
def init_array_plex_with_value (shape_in : PyShapeArg) (value : PyVal) (dt : DataType) :
    Except String SimpleArrayPlex :=
  match plexConstruct (make_shape shape_in) dt with
  | .error e => .error e
  | .ok array_plex =>
    match dt with
    | .Bool =>
      if isBoolInstance value then
        .ok (fillArray array_plex (.b (pyBoolOf value)))
      else .error "Data type mismatch, expected Python bool"
    | .Int8 =>
      if isIntInstance value then
        .ok (fillArray array_plex (.i (truncSigned 8 (pyIntOf value))))
      else .error "Data type mismatch, expected Python int"
    | .Int16 =>
      if isIntInstance value then
        .ok (fillArray array_plex (.i (truncSigned 16 (pyIntOf value))))
      else .error "Data type mismatch, expected Python int"
    | .Int32 =>
      if isIntInstance value then
        .ok (fillArray array_plex (.i (truncSigned 32 (pyIntOf value))))
      else .error "Data type mismatch, expected Python int"
    | .Int64 =>
      if isIntInstance value then
        .ok (fillArray array_plex (.i (truncSigned 64 (pyIntOf value))))
      else .error "Data type mismatch, expected Python int"
    | .Uint8 =>
      if isIntInstance value then
        .ok (fillArray array_plex (.i (truncUnsigned 8 (pyIntOf value))))
      else .error "Data type mismatch, expected Python int"
    | .Uint16 =>
      if isIntInstance value then
        .ok (fillArray array_plex (.i (truncUnsigned 16 (pyIntOf value))))
      else .error "Data type mismatch, expected Python int"
    | .Uint32 =>
      if isIntInstance value then
        .ok (fillArray array_plex (.i (truncUnsigned 32 (truncSigned 32 (pyIntOf value)))))
      else .error "Data type mismatch, expected Python int"
    | .Uint64 =>
      if isIntInstance value then
        .ok (fillArray array_plex (.i (truncUnsigned 64 (truncSigned 64 (pyIntOf value)))))
      else .error "Data type mismatch, expected Python int"
    | .Float32 =>
      if isFloatInstance value then
        .ok (fillArray array_plex (.f (pyFloatOf value)))
      else .error "Data type mismatch, expected Python float"
    | .Float64 =>
      if isFloatInstance value then
        .ok (fillArray array_plex (.f (pyFloatOf value)))
      else .error "Data type mismatch, expected Python float"
    | .Undefined => .error "Unsupported datatype"

/-- `get_typed_array` (wrap_SimpleArrayPlex.cpp lines 209-274): switch on
the plex's dtype tag; each of the ten supported cases casts `instance_ptr`
to the matching `SimpleArrayT` and returns a copy of it; the `default:`
label throws "Unsupported datatype". Modelled from the spec for the copy
itself (the `SimpleArrayT` copy constructor lives outside src/): it
allocates freshly owned storage — a new buffer identity, here
`buf + 1` — and copies shape and contents. -/
def get_typed_array (array_plex : SimpleArrayPlex) : Except String SimpleArray :=
  match array_plex.data_type with
  | .Undefined => .error "Unsupported datatype"
  | dt => .ok ⟨dt, array_plex.arr.buf + 1, array_plex.arr.shape, array_plex.arr.data⟩

/-- The "data type mismatch" message thrown by the `case` block that
handles dtype `D` in `init_array_plex_with_value`. -/
def mismatchMessage : DataType → String
  | .Bool => "Data type mismatch, expected Python bool"
  | .Float32 | .Float64 => "Data type mismatch, expected Python float"
  | _ => "Data type mismatch, expected Python int"

/-- A value that is a Python int proper (not a bool, not a float): the
"integer value" of the spec's family taxonomy. -/
def isStrictIntValue : PyVal → Bool
  | .int _ => true
  | _ => false

/-- The truncation the spec assigns to each integer destination dtype:
signed dtypes wrap into `[-2^(w-1), 2^(w-1))`, unsigned ones into
`[0, 2^w)`. -/
def intTrunc : DataType → ℤ → ℤ
  | .Int8, v => truncSigned 8 v
  | .Int16, v => truncSigned 16 v
  | .Int32, v => truncSigned 32 v
  | .Int64, v => truncSigned 64 v
  | .Uint8, v => truncUnsigned 8 v
  | .Uint16, v => truncUnsigned 16 v
  | .Uint32, v => truncUnsigned 32 v
  | .Uint64, v => truncUnsigned 64 v
  | _, v => v

/-! ## Theorems -/

/-- Casting an integer into a signed `w`-bit destination and then storing it
into an unsigned `w`-bit element reduces, in the end, exactly like a direct
unsigned truncation: the detour through the signed type (the `Uint32` and
`Uint64` cases of `init_array_plex_with_value`) does not change the stored
residue. -/
theorem truncUnsigned_truncSigned (w : ℕ) (v : ℤ) :
    truncUnsigned w (truncSigned w v) = truncUnsigned w v := by
  unfold truncUnsigned truncSigned
  split
  · exact Int.emod_emod_of_dvd v dvd_rfl
  · rw [Int.sub_emod, Int.emod_emod_of_dvd v dvd_rfl, Int.emod_self]
    simp [Int.emod_emod_of_dvd]

/-- C1: the claim says every named table's leading dimension equals the
corresponding interior count, in particular `fctpn` has shape `[nface]`.
The constructor (mesh.hpp line 176) sizes `m_fctpn` with `{ncell}` instead:
on the mesh with nnode=4, nface=5, ncell=2, nbound=3 the `fctpn` table has
leading dimension 2, not nface = 5. -/
theorem fctpn_sized_by_ncell_not_nface :
    (staticMesh2d 4 5 2 3).fctpn_shape = [(staticMesh2d 4 5 2 3).ncell] ∧
    (staticMesh2d 4 5 2 3).fctpn_shape ≠ [(staticMesh2d 4 5 2 3).nface] := by
  decide

/-- C7: a StaticMesh constructed with (nnode=4, nface=5, ncell=2, nbound=3)
in 2-D exposes `ndcrd` of shape [4,2], `fcnds` of shape [5,4], `clfcs` of
shape [2,6], `cltpn` of shape [2], and all three ghost counts read zero. -/
theorem staticMesh2d_counts_4_5_2_3_shapes :
    (staticMesh2d 4 5 2 3).ndcrd_shape = [4, 2] ∧
    (staticMesh2d 4 5 2 3).fcnds_shape = [5, 4] ∧
    (staticMesh2d 4 5 2 3).clfcs_shape = [2, 6] ∧
    (staticMesh2d 4 5 2 3).cltpn_shape = [2] ∧
    (staticMesh2d 4 5 2 3).ngstnode = 0 ∧
    (staticMesh2d 4 5 2 3).ngstface = 0 ∧
    (staticMesh2d 4 5 2 3).ngstcell = 0 := by
  decide

/-- C8: for every cell type, the dimension-dependent face count query
returns the edge count when the shape's dimensionality is 2 and the surface
count when it is 3. -/
theorem nface_eq_nedge_in_2d_nsurface_in_3d (c : CellType) :
    (c.ndim = 2 → c.nface = c.nedge) ∧ (c.ndim = 3 → c.nface = c.nsurface) := by
  constructor <;> intro h <;> simp [CellType.nface, h]

/-- Witness for C8 at the triangle (2-D) and hexahedron (3-D) cell types. -/
theorem nface_eq_nedge_in_2d_nsurface_in_3d_witness :
    TriangleCellType.nface = TriangleCellType.nedge ∧
    HexahedronCellType.nface = HexahedronCellType.nsurface :=
  ⟨(nface_eq_nedge_in_2d_nsurface_in_3d TriangleCellType).1 rfl,
   (nface_eq_nedge_in_2d_nsurface_in_3d HexahedronCellType).2 rfl⟩

/-- C10: for every cell type whose dimensionality is neither 2 nor 3, the
face count query returns 0; in particular the point shape (dimensionality 0)
and the line shape (dimensionality 1) report zero faces. -/
theorem nface_zero_outside_2d_3d :
    (∀ c : CellType, c.ndim ≠ 2 → c.ndim ≠ 3 → c.nface = 0) ∧
    PointCellType.nface = 0 ∧ LineCellType.nface = 0 := by
  refine ⟨fun c h2 h3 => ?_, by decide, by decide⟩
  simp [CellType.nface, h2, h3]

/-- Witness for C10 at the point cell type (dimensionality 0). -/
theorem nface_zero_outside_2d_3d_witness :
    PointCellType.ndim ≠ 2 ∧ PointCellType.ndim ≠ 3 ∧ PointCellType.nface = 0 :=
  ⟨by decide, by decide, nface_zero_outside_2d_3d.1 PointCellType (by decide) (by decide)⟩

/-- C6: `make_shape` first attempts the scalar interpretation and falls back
to the sequence interpretation, and for every scalar count `n` the scalar
form and the single-element sequence form produce the same rank-1 shape of
length `n`. -/
theorem make_shape_scalar_eq_singleton (n : ℕ) :
    make_shape (.ofInt n) = make_shape (.ofList [n]) ∧
    make_shape (.ofInt n) = [n] ∧
    (tryScalarCast (.ofInt n) = some n ∧ tryScalarCast (.ofList [n]) = none) :=
  ⟨rfl, rfl, rfl, rfl⟩

/-- C2: for every shape, dtype and value, if the value's kind does not match
the dtype's family — an integer value for the Bool dtype or a float dtype, a
float value for an integer dtype — then the value-fill constructor fails
with the "Data type mismatch" error of that dtype's case block, producing
no array (the check precedes every element write). -/
theorem valueKindMismatch_rejected (S : PyShapeArg) (V : PyVal) (D : DataType)
    (h : (isStrictIntValue V = true ∧ (D = DataType.Bool ∨ isFloatType D = true)) ∨
         (isFloatInstance V = true ∧ isIntegerType D = true)) :
    init_array_plex_with_value S V D = .error (mismatchMessage D) := by
  cases V <;> cases D <;>
    simp_all [init_array_plex_with_value, plexConstruct, mismatchMessage,
      isStrictIntValue, isFloatInstance, isIntegerType, isFloatType,
      isBoolInstance, isIntInstance]

/-- Witness for C2: an integer value supplied for the Bool dtype is
rejected with the bool-case mismatch message. -/
theorem valueKindMismatch_rejected_witness :
    init_array_plex_with_value (.ofInt 1) (.int 7) DataType.Bool =
      .error "Data type mismatch, expected Python bool" :=
  valueKindMismatch_rejected (.ofInt 1) (.int 7) DataType.Bool (Or.inl ⟨rfl, Or.inl rfl⟩)

/-- C3: for every integer dtype, shape and integral value, the value-fill
constructor succeeds and every element equals the value truncated to the
destination width per fixed-width wraparound — including the Uint32 and
Uint64 cases, whose detour through `int32_t` / `int64_t` still stores the
value reduced modulo `2^32` / `2^64`. -/
theorem integer_fill_truncates (S : PyShapeArg) (n : ℤ) (D : DataType)
    (h : isIntegerType D = true) :
    (init_array_plex_with_value S (.int n) D).toOption.map (fun p => p.arr.data) =
      some (List.replicate (make_shape S).prod (.i (intTrunc D n))) := by
  cases D <;> simp_all [init_array_plex_with_value, plexConstruct, isIntegerType,
    isIntInstance, fillArray, intTrunc, pyIntOf, Except.toOption,
    truncUnsigned_truncSigned]

/-- Witness for C3: filling an int8 array of shape [2] with 300 stores
44 = 300 mod 256 in every element. -/
theorem integer_fill_truncates_witness :
    isIntegerType DataType.Int8 = true ∧
    (init_array_plex_with_value (.ofInt 2) (.int 300) DataType.Int8).toOption.map
        (fun p => p.arr.data) =
      some (List.replicate (make_shape (.ofInt 2)).prod (.i (intTrunc DataType.Int8 300))) ∧
    List.replicate (make_shape (.ofInt 2)).prod (Scalar.i (intTrunc DataType.Int8 300)) =
      [Scalar.i 44, Scalar.i 44] :=
  ⟨rfl, integer_fill_truncates (.ofInt 2) 300 DataType.Int8 rfl, by decide⟩

/-- C9: for every integer dtype and shape, the value-fill constructor
accepts a Python bool — it passes `isinstance<pybind11::int_>` because the
Python bool type is a subtype of int — and fills every element with 0 or 1. -/
theorem bool_value_accepted_for_integer_dtype (S : PyShapeArg) (b : Bool) (D : DataType)
    (h : isIntegerType D = true) :
    (init_array_plex_with_value S (.bool b) D).toOption.map (fun p => p.arr.data) =
      some (List.replicate (make_shape S).prod (.i (if b then 1 else 0))) := by
  cases D <;> cases b <;>
    simp_all [init_array_plex_with_value, plexConstruct, isIntegerType,
      isIntInstance, fillArray, pyIntOf, Except.toOption] <;>
    exact Or.inr (by decide)

/-- Witness for C9: a uint8 array of shape [2] value-filled with the Python
bool True succeeds, every element reading 1. -/
theorem bool_value_accepted_for_integer_dtype_witness :
    isIntegerType DataType.Uint8 = true ∧
    (init_array_plex_with_value (.ofInt 2) (.bool true) DataType.Uint8).toOption.map
        (fun p => p.arr.data) =
      some (List.replicate (make_shape (.ofInt 2)).prod (.i (if true then 1 else 0))) ∧
    List.replicate (make_shape (.ofInt 2)).prod (Scalar.i (if true then 1 else 0)) =
      [Scalar.i 1, Scalar.i 1] :=
  ⟨rfl, bool_value_accepted_for_integer_dtype (.ofInt 2) true DataType.Uint8 rfl, by decide⟩

/-- C4: for every supported dtype and shape, constructing a plex and reading
`typed` yields an array whose element type matches the dtype and whose shape
equals the given shape, holding a freshly owned buffer distinct from the
plex's own while copying its contents; and on a plex whose tag is outside
the fixed enumeration `typed` fails with "Unsupported datatype". -/
theorem construct_typed_matches_dtype_and_shape (S : List ℕ) (D : DataType)
    (hD : D ≠ DataType.Undefined) :
    (∃ p, plexConstruct S D = .ok p ∧
       ∃ t, get_typed_array p = .ok t ∧ t.dtype = D ∧ t.shape = S ∧
         t.buf ≠ p.arr.buf ∧ t.data = p.arr.data) ∧
    (∀ q : SimpleArrayPlex, q.data_type = DataType.Undefined →
       get_typed_array q = .error "Unsupported datatype") := by
  constructor
  · cases D <;> first
      | exact absurd rfl hD
      | exact ⟨_, rfl, _, rfl, rfl, rfl, by simp, rfl⟩
  · intro q hq
    simp [get_typed_array, hq]

/-- Witness for C4 at shape [2, 3] and dtype int16. -/
theorem construct_typed_matches_dtype_and_shape_witness :
    DataType.Int16 ≠ DataType.Undefined ∧
    ((∃ p, plexConstruct [2, 3] DataType.Int16 = .ok p ∧
        ∃ t, get_typed_array p = .ok t ∧ t.dtype = DataType.Int16 ∧ t.shape = [2, 3] ∧
          t.buf ≠ p.arr.buf ∧ t.data = p.arr.data) ∧
     (∀ q : SimpleArrayPlex, q.data_type = DataType.Undefined →
        get_typed_array q = .error "Unsupported datatype")) :=
  ⟨by decide, construct_typed_matches_dtype_and_shape [2, 3] DataType.Int16 (by decide)⟩

/-- C5: constructing a Float64 array plex of shape [3] with fill value 5/2
and reading `typed` yields exactly [5/2, 5/2, 5/2] in a fresh buffer — no
drift, since the value passes through fill and copy unchanged. -/
theorem float64_roundtrip_exact :
    Except.bind (init_array_plex_with_value (.ofInt 3) (.float (5 / 2)) DataType.Float64)
      get_typed_array =
    .ok ⟨DataType.Float64, 1, [3], [.f (5 / 2), .f (5 / 2), .f (5 / 2)]⟩ := by
  rfl
